import Mathlib

/-!
Verification development for the real-time synchronization layer of the
Eduvos-Hackathon-2025 repository.

The embedding below models, directly from the source:
* `WebSocketService` (lib/websocket.ts): the connection manager holding the
  notification socket, the chat socket and a map of forum sockets, together
  with its shared reconnect counter and exponential backoff, as an explicit
  state machine driven by caller calls, socket callbacks and timer firings.
* `NotificationsDropdown` (components/forum-content.tsx): the notification
  state (list plus unread count) and its three mutations — push arrival,
  pull arrival (`loadNotifications`) and `handleMarkAsRead`.

Machine integers of the host language are modelled as `Int`/`Nat`; the
browser socket is modelled by its `readyState` and the events the
environment can deliver (`onopen`, `onclose`, timer fire).
-/

/-! ### Backoff policy (lib/websocket.ts, attemptReconnect) -/

/-- Mirrors `maxReconnectAttempts = 5`. -/
def maxReconnectAttempts : Nat := 5

/-- Mirrors `reconnectDelay = 1000` (milliseconds). -/
def reconnectDelay : Nat := 1000

/-- The delay computed by `attemptReconnect` as a function of the number of
reconnect attempts made so far (the counter value before the increment):
the code increments `reconnectAttempts` and then computes
`reconnectDelay * Math.pow(2, reconnectAttempts - 1)`. -/
def backoffDelay (attempt : Nat) : Nat :=
  reconnectDelay * 2 ^ ((attempt + 1) - 1)

/-- The largest delay the policy can produce before the attempt ceiling:
the delay of the last attempt allowed by `maxReconnectAttempts`. -/
def backoffCap : Nat :=
  reconnectDelay * 2 ^ (maxReconnectAttempts - 1)

/-! ### WebSocketService state machine (lib/websocket.ts) -/

/-- Browser WebSocket readyState. -/
inductive ReadyState where
  | connecting
  | opened
  | closing
  | closed
deriving DecidableEq, Repr

/-- Which logical channel a socket was created for. -/
inductive ChanKind where
  | notifications
  | chat
  | forum (category : String)
deriving DecidableEq, Repr

/-- One socket ever created by the service, identified by its position in
the creation log. -/
structure Sock where
  chanKind : ChanKind
  ready : ReadyState
deriving DecidableEq, Repr

/-- A pending `setTimeout` reconnect callback: which channel the captured
closure reconnects, and the delay it was scheduled with. -/
structure RTimer where
  target : ChanKind
  delay : Nat
deriving DecidableEq, Repr

/-- Association-list lookup, mirroring `Map.get`. -/
def alistLookup {κ α : Type} [DecidableEq κ] (key : κ) : List (κ × α) → Option α
  | [] => none
  | (k, v) :: rest => if k = key then some v else alistLookup key rest

/-- Association-list insertion/replacement, mirroring `Map.set` (replaces in
place, appends new keys; JS maps preserve insertion order). -/
def alistSet {κ α : Type} [DecidableEq κ] (key : κ) (v : α) : List (κ × α) → List (κ × α)
  | [] => [(key, v)]
  | (k, w) :: rest => if k = key then (k, v) :: rest else (k, w) :: alistSet key v rest

/-- Association-list deletion, mirroring `Map.delete`. -/
def alistDelete {κ α : Type} [DecidableEq κ] (key : κ) : List (κ × α) → List (κ × α)
  | [] => []
  | (k, w) :: rest => if k = key then rest else (k, w) :: alistDelete key rest

/-- Outbound frames the service writes to a socket. -/
inductive Payload where
  | markRead (notificationId : Int)
  | chatMsg (recipientId : Int) (content : String)
  | forumMsg (category : String) (content : String) (token : Option String)
deriving DecidableEq, Repr

/-- State of the `WebSocketService` instance plus the transport environment:
socket references (`notificationWs`, `chatWs`, `forumWs`), the shared
`reconnectAttempts` counter, the log of all sockets ever created (index =
socket identity), the pending reconnect timers keyed by timer id, and the
log of frames sent. The forum map is keyed by `Option String` because a JS
`Map` lookup with an `undefined` key (as in the no-argument
`disconnectForum()` call) simply finds no entry. -/
structure WSState where
  notificationWs : Option Nat
  chatWs : Option Nat
  forumWs : List (Option String × Nat)
  reconnectAttempts : Nat
  sockets : List Sock
  timers : List (Nat × RTimer)
  nextTimerId : Nat
  sent : List Payload
deriving DecidableEq, Repr

/-- Fresh service, no sockets, no timers. -/
def wsInit : WSState :=
  { notificationWs := none, chatWs := none, forumWs := [],
    reconnectAttempts := 0, sockets := [], timers := [],
    nextTimerId := 0, sent := [] }

/-- Socket record at a given index of the creation log. -/
def sockAt : List Sock → Nat → Option Sock
  | [], _ => none
  | sock :: _, 0 => some sock
  | _ :: rest, n + 1 => sockAt rest n

/-- Overwrite the readyState of the socket at a given index. -/
def setReadyAt : List Sock → Nat → ReadyState → List Sock
  | [], _, _ => []
  | sock :: rest, 0, r => { sock with ready := r } :: rest
  | sock :: rest, n + 1, r => sock :: setReadyAt rest n r

/-- readyState of a socket reference. -/
def readyOf (s : WSState) (sid : Nat) : Option ReadyState :=
  (sockAt s.sockets sid).map Sock.ready

/-- Mirrors the guard `ws?.readyState === WebSocket.OPEN`. -/
def isOpenSock (s : WSState) (o : Option Nat) : Bool :=
  match o with
  | some sid => readyOf s sid == some ReadyState.opened
  | none => false

/-- Allocate a new socket in CONNECTING state (`new WebSocket(url)`);
returns the updated state and the socket id. -/
def newSocket (k : ChanKind) (s : WSState) : WSState × Nat :=
  ({ s with sockets := s.sockets ++ [⟨k, ReadyState.connecting⟩] }, s.sockets.length)

/-- Mirrors `ws.close()`: a CONNECTING or OPEN socket moves to CLOSING (its
close event is delivered later by the environment); otherwise no effect. -/
def closeSocket (sid : Nat) (s : WSState) : WSState :=
  match readyOf s sid with
  | some ReadyState.connecting => { s with sockets := setReadyAt s.sockets sid ReadyState.closing }
  | some ReadyState.opened => { s with sockets := setReadyAt s.sockets sid ReadyState.closing }
  | _ => s

/-- Mirrors `attemptReconnect(reconnectFn)`: if the shared counter is below
the ceiling, increment it and schedule one timer whose delay is
`reconnectDelay * 2^(reconnectAttempts - 1)` (computed after the
increment, i.e. `backoffDelay` of the pre-increment value); otherwise give
up silently. -/
def attemptReconnect (target : ChanKind) (s : WSState) : WSState :=
  if s.reconnectAttempts < maxReconnectAttempts then
    { s with reconnectAttempts := s.reconnectAttempts + 1,
             timers := s.timers ++ [(s.nextTimerId, ⟨target, backoffDelay s.reconnectAttempts⟩)],
             nextTimerId := s.nextTimerId + 1 }
  else s

/-- Mirrors `connectNotifications`: return early only when the current
notification socket is OPEN; otherwise create a new socket and overwrite
the reference. -/
def connectNotifications (s : WSState) : WSState :=
  if isOpenSock s s.notificationWs then s
  else
    let p := newSocket ChanKind.notifications s
    { p.1 with notificationWs := some p.2 }

/-- Mirrors `disconnectNotifications`: close the referenced socket (if any)
and null the reference. No timer is cancelled and no liveness flag is set. -/
def disconnectNotifications (s : WSState) : WSState :=
  match s.notificationWs with
  | some sid => { closeSocket sid s with notificationWs := none }
  | none => s

/-- Mirrors `markNotificationRead`: send the frame when the notification
socket is OPEN; otherwise do nothing at all (no error, no queue). -/
def markNotificationRead (notificationId : Int) (s : WSState) : WSState :=
  if isOpenSock s s.notificationWs then
    { s with sent := s.sent ++ [Payload.markRead notificationId] }
  else s

/-- Mirrors `connectChat`. -/
def connectChat (s : WSState) : WSState :=
  if isOpenSock s s.chatWs then s
  else
    let p := newSocket ChanKind.chat s
    { p.1 with chatWs := some p.2 }

/-- Mirrors `disconnectChat`. -/
def disconnectChat (s : WSState) : WSState :=
  match s.chatWs with
  | some sid => { closeSocket sid s with chatWs := none }
  | none => s

/-- Mirrors `sendChatMessage`: send when OPEN, otherwise throw
`Error("Chat WebSocket not connected")`. -/
def sendChatMessage (recipientId : Int) (content : String) (s : WSState) :
    Except String WSState :=
  if isOpenSock s s.chatWs then
    Except.ok { s with sent := s.sent ++ [Payload.chatMsg recipientId content] }
  else
    Except.error "Chat WebSocket not connected"

/-- Mirrors `connectForum`: return early only when the existing socket for
the category is OPEN; otherwise create a new socket and `Map.set` it,
orphaning whatever socket the entry previously held. -/
def connectForum (category : String) (s : WSState) : WSState :=
  if isOpenSock s (alistLookup (some category) s.forumWs) then s
  else
    let p := newSocket (ChanKind.forum category) s
    { p.1 with forumWs := alistSet (some category) p.2 p.1.forumWs }

/-- Mirrors `disconnectForum(category)`. The parameter is `Option String`
so that the call site that passes no argument (category `undefined`) is
represented by `none`; `Map.get` with that key finds no entry. -/
def disconnectForum (category : Option String) (s : WSState) : WSState :=
  match alistLookup category s.forumWs with
  | some sid => { closeSocket sid s with forumWs := alistDelete category s.forumWs }
  | none => s

/-- Mirrors `sendForumMessage`: send (with the caller-supplied auth token)
when the category socket is OPEN, otherwise throw. -/
def sendForumMessage (category : String) (content : String) (token : Option String)
    (s : WSState) : Except String WSState :=
  if isOpenSock s (alistLookup (some category) s.forumWs) then
    Except.ok { s with sent := s.sent ++ [Payload.forumMsg category content token] }
  else
    Except.error ("Forum WebSocket not connected for category: " ++ category)

/-- Mirrors `disconnectAll`: disconnect notifications, chat, then every
forum category currently in the map. -/
def disconnectAll (s : WSState) : WSState :=
  let s1 := disconnectChat (disconnectNotifications s)
  (s1.forumWs.map Prod.fst).foldl (fun acc k => disconnectForum k acc) s1

/-- Environment delivers a socket `onopen` event: only a CONNECTING socket
can open; every `onopen` handler in the source resets the shared
`reconnectAttempts` to 0. -/
def handleOpen (sid : Nat) (s : WSState) : WSState :=
  if readyOf s sid = some ReadyState.connecting then
    { s with sockets := setReadyAt s.sockets sid ReadyState.opened,
             reconnectAttempts := 0 }
  else s

/-- Environment delivers a socket `onclose` event (handshake failure,
abnormal close, or completion of a caller-initiated `close()`): the socket
becomes CLOSED and the handler attached at creation runs — it nulls or
deletes the service reference for its channel unconditionally and calls
`attemptReconnect` with a closure reconnecting the same channel. -/
def handleClose (sid : Nat) (s : WSState) : WSState :=
  match sockAt s.sockets sid with
  | none => s
  | some sock =>
    if sock.ready = ReadyState.closed then s
    else
      let s1 := { s with sockets := setReadyAt s.sockets sid ReadyState.closed }
      match sock.chanKind with
      | ChanKind.notifications =>
          attemptReconnect ChanKind.notifications { s1 with notificationWs := none }
      | ChanKind.chat =>
          attemptReconnect ChanKind.chat { s1 with chatWs := none }
      | ChanKind.forum cat =>
          attemptReconnect (ChanKind.forum cat)
            { s1 with forumWs := alistDelete (some cat) s1.forumWs }

/-- A scheduled timer fires: remove it from the pending set and run the
captured reconnect closure, which calls the connect method for its
channel. The connect method itself performs no check that the channel is
still wanted. -/
def fireTimer (tid : Nat) (s : WSState) : WSState :=
  match alistLookup tid s.timers with
  | none => s
  | some t =>
    let s1 := { s with timers := alistDelete tid s.timers }
    match t.target with
    | ChanKind.notifications => connectNotifications s1
    | ChanKind.chat => connectChat s1
    | ChanKind.forum cat => connectForum cat s1

/-- Events driving the service: caller calls, socket callbacks, timer
firings. `disconnectForumCall none` is the call site that passes no
category argument. -/
inductive Ev where
  | connectNotifications
  | disconnectNotifications
  | connectChat
  | disconnectChat
  | connectForum (category : String)
  | disconnectForumCall (category : Option String)
  | disconnectAll
  | markNotificationRead (notificationId : Int)
  | sockOpen (sid : Nat)
  | sockClosed (sid : Nat)
  | timerFire (tid : Nat)
deriving DecidableEq, Repr

/-- One event-loop turn. -/
def wsStep : Ev → WSState → WSState
  | Ev.connectNotifications, s => connectNotifications s
  | Ev.disconnectNotifications, s => disconnectNotifications s
  | Ev.connectChat, s => connectChat s
  | Ev.disconnectChat, s => disconnectChat s
  | Ev.connectForum cat, s => connectForum cat s
  | Ev.disconnectForumCall cat, s => disconnectForum cat s
  | Ev.disconnectAll, s => disconnectAll s
  | Ev.markNotificationRead nid, s => markNotificationRead nid s
  | Ev.sockOpen sid, s => handleOpen sid s
  | Ev.sockClosed sid, s => handleClose sid s
  | Ev.timerFire tid, s => fireTimer tid s

/-- Run a sequence of event-loop turns. -/
def wsRun : List Ev → WSState → WSState
  | [], s => s
  | e :: rest, s => wsRun rest (wsStep e s)

/-- Number of non-closed (live) transports ever created for a given forum
category. -/
def liveForumSockets (category : String) (s : WSState) : Nat :=
  (s.sockets.filter
    (fun sock => sock.chanKind == ChanKind.forum category
      && !(sock.ready == ReadyState.closed))).length

/-! ### NotificationsDropdown state (components/forum-content.tsx)

The component keeps two pieces of state, `notifications` and `unreadCount`,
and mutates them in three places: the push callback registered with
`connectNotifications`, the pull handler `loadNotifications`, and
`handleMarkAsRead`. `created_at` timestamps are modelled as naturals
(epoch milliseconds) so that chronological order is numeric order;
`unreadCount` is an `Int`, as JS numbers are signed. -/

/-- The `Notification` record of lib/api.ts. -/
structure Notif where
  id : Int
  notificationType : String
  message : String
  actorId : Option Int
  postId : Option Int
  commentId : Option Int
  isRead : Int
  createdAt : Nat
deriving DecidableEq, Repr

/-- Component state: the `notifications` list and the `unreadCount`. -/
structure NState where
  notifications : List Notif
  unreadCount : Int
deriving DecidableEq, Repr

/-- Initial component state. -/
def nInit : NState := { notifications := [], unreadCount := 0 }

/-- Mirrors `data.filter((n) => n.is_read === 0).length`. -/
def countUnread (l : List Notif) : Int :=
  ((l.filter (fun n => n.isRead == 0)).length : Int)

/-- The push callback passed to `connectNotifications`: prepend the pushed
notification, truncate to 20, and increment `unreadCount` by one —
unconditionally, with no duplicate check. -/
def pushNotification (n : Notif) (s : NState) : NState :=
  { notifications := (n :: s.notifications).take 20,
    unreadCount := s.unreadCount + 1 }

/-- Mirrors `loadNotifications`: replace the whole list with the fetched
batch and recompute `unreadCount` from the batch. -/
def loadNotifications (data : List Notif) (_s : NState) : NState :=
  { notifications := data, unreadCount := countUnread data }

/-- Mirrors `handleMarkAsRead`: the REST call runs first; only when it
succeeds (`restOk`) does the handler set `is_read := 1` on the matching
entry and decrement `unreadCount`, floored at zero via `Math.max(0, .)`.
When the call fails, the catch block only logs and state is unchanged. -/
def handleMarkAsRead (restOk : Bool) (notificationId : Int) (s : NState) : NState :=
  if restOk then
    { notifications := s.notifications.map
        (fun n => if n.id == notificationId then { n with isRead := 1 } else n),
      unreadCount := max 0 (s.unreadCount - 1) }
  else s

/-- Mutations of the notification state, in any order. -/
inductive NEv where
  | push (n : Notif)
  | pull (data : List Notif)
  | markRead (restOk : Bool) (notificationId : Int)
deriving DecidableEq, Repr

/-- Apply one mutation. -/
def nStep : NEv → NState → NState
  | NEv.push n, s => pushNotification n s
  | NEv.pull data, s => loadNotifications data s
  | NEv.markRead ok nid, s => handleMarkAsRead ok nid s

/-- Apply a sequence of mutations. -/
def nRun : List NEv → NState → NState
  | [], s => s
  | e :: rest, s => nRun rest (nStep e s)

/-- The spec's Reconciled Notification Set invariant: at most one entry per
id, sorted by creation time descending, and `unreadCount` equal to the
number of unread entries. -/
def reconInvariant (s : NState) : Prop :=
  (s.notifications.map (fun n => n.id)).Nodup ∧
  s.notifications.Pairwise (fun a b => b.createdAt ≤ a.createdAt) ∧
  s.unreadCount = countUnread s.notifications

instance (s : NState) : Decidable (reconInvariant s) := by
  unfold reconInvariant
  infer_instance

/-! ### Concrete scenario inputs -/

/-- A sample unread notification (id 5). -/
def n5 : Notif :=
  { id := 5, notificationType := "like", message := "liked your post",
    actorId := some 2, postId := some 7, commentId := none,
    isRead := 0, createdAt := 100 }

/-- The same notification already read. -/
def n5read : Notif := { n5 with isRead := 1 }

/-- A newer unread notification (id 7). -/
def n7 : Notif :=
  { id := 7, notificationType := "comment", message := "commented on your post",
    actorId := some 3, postId := some 7, commentId := some 1,
    isRead := 0, createdAt := 200 }

/-- Scenario for C1: connect notifications, the socket opens, the caller
explicitly disconnects, the close event for the old socket runs the
onclose handler (which schedules a reconnect timer), and the timer later
fires. -/
def c1Trace : List Ev :=
  [Ev.connectNotifications, Ev.sockOpen 0, Ev.disconnectNotifications,
   Ev.sockClosed 0, Ev.timerFire 0]

/-- Scenario for C2: connect the same forum room twice while the first
socket is still CONNECTING. -/
def c2Trace : List Ev := [Ev.connectForum "general", Ev.connectForum "general"]

/-- Scenario for C6, phase 1: the notifications channel fails twice (the
handshake fails, the reconnect timer fires, the retry fails as well). -/
def c6TraceA : List Ev :=
  [Ev.connectNotifications, Ev.sockClosed 0, Ev.timerFire 0, Ev.sockClosed 1]

/-- Scenario for C6, phase 2: afterwards the chat channel connects and its
socket opens. -/
def c6TraceB : List Ev := c6TraceA ++ [Ev.connectChat, Ev.sockOpen 2]

/-- Scenario for C6, phase 3: the notifications reconnect timer fires and
that attempt fails, scheduling the next notifications retry. -/
def c6TraceC : List Ev := c6TraceB ++ [Ev.timerFire 1, Ev.sockClosed 3]

/-- Scenario for C7: open the "general" room, its socket opens, then the
room switch runs the effect cleanup — `disconnectForum()` with no
argument — and connects the "events" room. -/
def c7Trace : List Ev :=
  [Ev.connectForum "general", Ev.sockOpen 0,
   Ev.disconnectForumCall none, Ev.connectForum "events"]

/-! ### Claims -/

/-- C1: the claim says that after an explicit disconnect a reconnect timer
that later fires is a no-op and no new socket is ever opened for the
channel. The code violates this: after `connectNotifications`, a
successful open, and an explicit `disconnectNotifications`, the old
socket's close event still runs the onclose handler, which schedules a
reconnect timer; when that timer fires, `connectNotifications` finds the
reference nulled and opens a brand-new socket (socket 1). Before the
timer fired only one socket had ever existed and the reference was
`none`; afterwards a second socket exists, is referenced, and is
connecting. -/
theorem c1_timer_after_disconnect_opens_new_socket :
    (wsRun (c1Trace.take 3) wsInit).notificationWs = none ∧
    (wsRun (c1Trace.take 3) wsInit).sockets.length = 1 ∧
    (wsRun c1Trace wsInit).sockets.length = 2 ∧
    (wsRun c1Trace wsInit).notificationWs = some 1 ∧
    readyOf (wsRun c1Trace wsInit) 1 = some ReadyState.connecting := by
  decide

/-- C2, counterexample: calling `connectForum` for a key whose socket is
still CONNECTING does not return early — it creates a second transport,
so the channel owns two live (non-closed) sockets at once, refuting both
the at-most-one-socket invariant and the claimed idempotence for
CONNECTING channels. -/
theorem c2_counterexample_connect_while_connecting :
    liveForumSockets "general" (wsRun c2Trace wsInit) = 2 ∧
    ¬ liveForumSockets "general" (wsRun c2Trace wsInit) ≤ 1 := by
  decide

/-- C2, amended: the connect operation is idempotent only for a channel
whose socket is already OPEN — then it returns the state unchanged,
creating no second transport. -/
theorem c2_connect_idempotent_when_open (s : WSState) (category : String) (sid : Nat)
    (h1 : alistLookup (some category) s.forumWs = some sid)
    (h2 : readyOf s sid = some ReadyState.opened) :
    connectForum category s = s := by
  simp [connectForum, isOpenSock, h1, h2]

/-- C2, witness: a concrete OPEN forum channel on which `connectForum` is a
no-op. -/
theorem c2_connect_idempotent_when_open_witness :
    connectForum "general" (wsRun [Ev.connectForum "general", Ev.sockOpen 0] wsInit) =
      wsRun [Ev.connectForum "general", Ev.sockOpen 0] wsInit :=
  c2_connect_idempotent_when_open _ "general" 0 (by decide) (by decide)

/-- C3, counterexample: the merge is not idempotent — delivering the same
push notification twice produces a different final state (a duplicated
entry and a double-counted `unreadCount`) than delivering it once, so
duplication of the same logical inputs changes the outcome. -/
theorem c3_counterexample_duplicate_push :
    nRun [NEv.push n5, NEv.push n5] nInit ≠ nRun [NEv.push n5] nInit ∧
    (nRun [NEv.push n5, NEv.push n5] nInit).unreadCount = 2 ∧
    (nRun [NEv.push n5] nInit).unreadCount = 1 := by
  decide

/-- C3, amended: only the pull path is idempotent — `loadNotifications`
replaces the entire list and recomputes `unreadCount` from the batch, so
repeating the same pull is a no-op; the push path has no duplicate
check, so the final state is not invariant under duplication or
reordering of push deliveries. -/
theorem c3_pull_idempotent (data : List Notif) (s : NState) :
    loadNotifications data (loadNotifications data s) = loadNotifications data s :=
  rfl

/-- C4, counterexample: the invariant does not hold after every mutation —
after two push arrivals of the same notification the set holds two
entries with id 5. -/
theorem c4_counterexample_push_breaks_invariant :
    ¬ reconInvariant (nRun [NEv.push n5, NEv.push n5] nInit) ∧
    ((nRun [NEv.push n5, NEv.push n5] nInit).notifications.map
      (fun n => n.id)) = [5, 5] := by
  decide

/-- C4, amended: after a pull mutation the state is exactly the fetched
batch with `unreadCount` recomputed from it, so the invariant (at most
one entry per id, sorted by creation time descending, `unreadCount` =
number of unread entries) holds whenever the batch itself has distinct
ids and is sorted; push and mark-as-read mutations can break it. -/
theorem c4_invariant_after_pull (data : List Notif) (s : NState)
    (h1 : (data.map (fun n => n.id)).Nodup)
    (h2 : data.Pairwise (fun a b => b.createdAt ≤ a.createdAt)) :
    reconInvariant (loadNotifications data s) :=
  ⟨h1, h2, rfl⟩

/-- C4, witness: the invariant holds after pulling a concrete sorted,
duplicate-free batch. -/
theorem c4_invariant_after_pull_witness :
    reconInvariant (loadNotifications [n7, n5] nInit) :=
  c4_invariant_after_pull [n7, n5] nInit (by decide) (by decide)

/-- C5: the backoff delay is a pure function of the attempt count,
monotonically non-decreasing, and bounded by the cap (the delay of the
last attempt below `maxReconnectAttempts`). -/
theorem c5_backoff_monotone_capped (a1 a2 : Nat) (h1 : a1 < a2)
    (h2 : a2 < maxReconnectAttempts) :
    backoffDelay a1 ≤ backoffDelay a2 ∧ backoffDelay a2 ≤ backoffCap := by
  simp only [backoffDelay, backoffCap, maxReconnectAttempts] at h2 ⊢
  constructor
  · exact Nat.mul_le_mul_left _ (Nat.pow_le_pow_right (by norm_num) (by omega))
  · exact Nat.mul_le_mul_left _ (Nat.pow_le_pow_right (by norm_num) (by omega))

/-- C5, witness: concrete attempts 1 < 3 < 5. -/
theorem c5_backoff_monotone_capped_witness :
    backoffDelay 1 ≤ backoffDelay 3 ∧ backoffDelay 3 ≤ backoffCap :=
  c5_backoff_monotone_capped 1 3 (by decide) (by decide)

/-- C6, counterexample: the attempt counter is shared, not per-channel.
After the notifications channel has failed twice the counter is 2; the
chat socket then opens and resets it to 0, so the next notifications
retry is scheduled with delay `backoffDelay 0 = 1000` instead of
`backoffDelay 2 = 4000` — a chat connection event changed the
notifications channel's reconnect state. -/
theorem c6_counterexample_chat_open_resets_counter :
    (wsRun c6TraceA wsInit).reconnectAttempts = 2 ∧
    (wsRun c6TraceB wsInit).reconnectAttempts = 0 ∧
    alistLookup 2 (wsRun c6TraceC wsInit).timers =
      some { target := ChanKind.notifications, delay := 1000 } ∧
    backoffDelay 2 = 4000 := by
  decide

/-- C6, amended: the service keeps one reconnect counter shared by every
channel — any socket's successful open resets it to 0, and scheduling a
reconnect for any channel increments it (while below the ceiling), so
connection events on one channel do change the backoff state used by the
others. -/
theorem c6_shared_counter (s : WSState) (sid : Nat) (k : ChanKind)
    (h1 : readyOf s sid = some ReadyState.connecting)
    (h2 : s.reconnectAttempts < maxReconnectAttempts) :
    (handleOpen sid s).reconnectAttempts = 0 ∧
    (attemptReconnect k s).reconnectAttempts = s.reconnectAttempts + 1 := by
  constructor
  · simp [handleOpen, h1]
  · simp [attemptReconnect, h2]

/-- C6, witness: the shared-counter behaviour at a concrete state with one
connecting notifications socket. -/
theorem c6_shared_counter_witness :
    (handleOpen 0 (wsRun [Ev.connectNotifications] wsInit)).reconnectAttempts = 0 ∧
    (attemptReconnect ChanKind.chat (wsRun [Ev.connectNotifications] wsInit)).reconnectAttempts =
      (wsRun [Ev.connectNotifications] wsInit).reconnectAttempts + 1 :=
  c6_shared_counter (wsRun [Ev.connectNotifications] wsInit) 0 ChanKind.chat
    (by decide) (by decide)

/-- C7: the claim says a room switch closes the previous room's channel.
The code violates this: the effect cleanup calls `disconnectForum()` with
no argument, so the `Map` lookup with an undefined category finds no
entry and the call is a no-op (the state after the cleanup equals the
state before it); after the switch the old "general" socket is still in
the registry and still OPEN, its reconnect cycle intact. -/
theorem c7_room_switch_leaves_old_socket_open :
    wsRun (c7Trace.take 3) wsInit = wsRun (c7Trace.take 2) wsInit ∧
    alistLookup (some "general") (wsRun c7Trace wsInit).forumWs = some 0 ∧
    readyOf (wsRun c7Trace wsInit) 0 = some ReadyState.opened := by
  decide

/-- C8, counterexample: `markNotificationRead` invoked while the
notification socket is not OPEN (here: a channel whose socket is still
CONNECTING) is a silent no-op — the state is unchanged, no frame is
recorded, and the function has no error path at all, contradicting the
claim that every send operation fails fast with a NotConnected signal. -/
theorem c8_counterexample_markread_silent_drop :
    isOpenSock (wsRun [Ev.connectNotifications] wsInit)
      (wsRun [Ev.connectNotifications] wsInit).notificationWs = false ∧
    markNotificationRead 1 (wsRun [Ev.connectNotifications] wsInit) =
      wsRun [Ev.connectNotifications] wsInit ∧
    (markNotificationRead 1 (wsRun [Ev.connectNotifications] wsInit)).sent = [] := by
  decide

/-- C8, amended: chat and forum sends invoked while the target socket is
not OPEN fail fast by throwing a not-connected error; the mark-read send,
however, silently does nothing (no frame, no queue, no signal) when the
notification socket is not OPEN. -/
theorem c8_sends_fail_fast_markread_silent (s : WSState)
    (recipientId notificationId : Int) (content category : String)
    (token : Option String)
    (h1 : isOpenSock s s.chatWs = false)
    (h2 : isOpenSock s (alistLookup (some category) s.forumWs) = false)
    (h3 : isOpenSock s s.notificationWs = false) :
    sendChatMessage recipientId content s =
      Except.error "Chat WebSocket not connected" ∧
    sendForumMessage category content token s =
      Except.error ("Forum WebSocket not connected for category: " ++ category) ∧
    markNotificationRead notificationId s = s := by
  refine ⟨?_, ?_, ?_⟩ <;>
    simp [sendChatMessage, sendForumMessage, markNotificationRead, h1, h2, h3]

/-- C8, witness: the three not-connected behaviours at the initial state. -/
theorem c8_sends_fail_fast_markread_silent_witness :
    sendChatMessage 1 "hi" wsInit = Except.error "Chat WebSocket not connected" ∧
    sendForumMessage "general" "hi" none wsInit =
      Except.error ("Forum WebSocket not connected for category: " ++ "general") ∧
    markNotificationRead 1 wsInit = wsInit :=
  c8_sends_fail_fast_markread_silent wsInit 1 1 "hi" "general" none
    (by decide) (by decide) (by decide)

/-- C9, counterexample: the local update is not optimistic — when the REST
call fails, `handleMarkAsRead` leaves the state untouched, so the
notification's local `is_read` is still 0 after the call, contradicting
the claim that it is set to true before and independently of the REST
outcome. -/
theorem c9_counterexample_no_update_on_rest_failure :
    handleMarkAsRead false 5 { notifications := [n5], unreadCount := 1 } =
      { notifications := [n5], unreadCount := 1 } ∧
    n5.isRead = 0 := by
  decide

/-- C9, amended: `handleMarkAsRead` sets the local `is_read` only after the
REST call succeeds; on failure the local state is unchanged (so there is
nothing to roll back), and an entry that is already read is preserved
unchanged by any later successful mark-as-read. -/
theorem c9_markread_success_only_and_monotone (s : NState) (notificationId : Int) :
    handleMarkAsRead false notificationId s = s ∧
    ∀ n, n ∈ s.notifications → n.isRead = 1 →
      n ∈ (handleMarkAsRead true notificationId s).notifications := by
  constructor
  · rfl
  · intro n hn hr
    simp only [handleMarkAsRead, if_pos]
    refine List.mem_map.2 ⟨n, hn, ?_⟩
    by_cases hid : n.id == notificationId
    · cases n
      simp_all
    · simp [hid]

/-- C9, witness: concrete failure no-op and read-state preservation. -/
theorem c9_markread_success_only_and_monotone_witness :
    handleMarkAsRead false 5 { notifications := [n5read], unreadCount := 0 } =
      { notifications := [n5read], unreadCount := 0 } ∧
    n5read ∈ (handleMarkAsRead true 5
      { notifications := [n5read], unreadCount := 0 }).notifications :=
  ⟨(c9_markread_success_only_and_monotone { notifications := [n5read], unreadCount := 0 } 5).1,
   (c9_markread_success_only_and_monotone { notifications := [n5read], unreadCount := 0 } 5).2
     n5read (by decide) (by decide)⟩

/-- Every single mutation of the notification state preserves a
non-negative `unreadCount`: a push adds one, a pull recomputes it as a
list length, a successful mark-as-read floors the decrement at zero, and
a failed one changes nothing. -/
theorem unread_nonneg_step (e : NEv) (s : NState) (h : 0 ≤ s.unreadCount) :
    0 ≤ (nStep e s).unreadCount := by
  cases e with
  | push n =>
    simp only [nStep, pushNotification]
    omega
  | pull data =>
    simp only [nStep, loadNotifications, countUnread]
    exact Int.natCast_nonneg _
  | markRead ok nid =>
    cases ok with
    | true =>
      simp only [nStep, handleMarkAsRead, if_pos]
      exact le_max_left 0 _
    | false =>
      simpa only [nStep, handleMarkAsRead, if_neg] using h

/-- C10: `unreadCount` never becomes negative — starting from any state
with a non-negative count, every sequence of mutations (including
repeated mark-as-read calls on an already-read id) keeps it at or above
zero, because the mark-as-read handler decrements with a floor of zero. -/
theorem c10_unreadCount_nonneg (evs : List NEv) (s : NState)
    (h : 0 ≤ s.unreadCount) : 0 ≤ (nRun evs s).unreadCount := by
  induction evs generalizing s with
  | nil => exact h
  | cons e rest ih => exact ih (nStep e s) (unread_nonneg_step e s h)

/-- C10, witness: marking id 5 as read twice starting from the empty state
(more calls than unread notifications) still yields a count ≥ 0. -/
theorem c10_unreadCount_nonneg_witness :
    0 ≤ (nRun [NEv.markRead true 5, NEv.markRead true 5] nInit).unreadCount :=
  c10_unreadCount_nonneg [NEv.markRead true 5, NEv.markRead true 5] nInit (by decide)

